import Mathlib

/-!
Verification of the animated-mask compositing engine: the icon shine sweep
(`icone_shine/icon_shine_effect.py`) and the year scroll
(`year_scroll/year_scroll.py`). Python float arithmetic is modelled by exact
rationals where the source only uses field operations, and by real numbers
where the source calls transcendental functions (`exp`, `cos`, `sin`,
Gaussian blur). Python `int(...)` truncation on nonnegative values is the
rational floor; numpy float-to-uint8 stores truncate toward zero.
-/

namespace IconShine

/-- Total video length in seconds (`TOTAL_DURATION = 2.5`). -/
def TOTAL_DURATION : ℚ := 5 / 2

/-- When the shine animation starts (`ANIM_START_TIME = 0.5`). -/
def ANIM_START_TIME : ℚ := 1 / 2

/-- How long the shine animation lasts (`ANIM_DURATION = 1.0`). -/
def ANIM_DURATION : ℚ := 1

/-- Frames per second (`FPS = 30`). -/
def FPS : ℚ := 30

/-- Angle of the shine bar in degrees (`SHINE_ANGLE_DEG = -60`). -/
def SHINE_ANGLE_DEG : ℚ := -60

/-- Width of the shine as a fraction of icon width (`SHINE_WIDTH_FACTOR = 0.25`). -/
def SHINE_WIDTH_FACTOR : ℚ := 1 / 4

/-- `ease_out_quad(t) = 1 - (1 - t) * (1 - t)`. -/
def ease_out_quad (t : ℚ) : ℚ := 1 - (1 - t) * (1 - t)

/-- `TOTAL_FRAMES = int(TOTAL_DURATION * FPS)`; Python `int` truncates. -/
def TOTAL_FRAMES : ℕ := (⌊TOTAL_DURATION * FPS⌋).toNat

/-- `ANIM_START_FRAME = int(ANIM_START_TIME * FPS)`. -/
def ANIM_START_FRAME : ℕ := (⌊ANIM_START_TIME * FPS⌋).toNat

/-- `ANIM_END_FRAME = ANIM_START_FRAME + int(ANIM_DURATION * FPS)`. -/
def ANIM_END_FRAME : ℕ := ANIM_START_FRAME + (⌊ANIM_DURATION * FPS⌋).toNat

/-- `progress = (i - ANIM_START_FRAME) / (ANIM_END_FRAME - ANIM_START_FRAME)`,
computed for frames inside the animating window. -/
def progress (i : ℕ) : ℚ :=
  ((i : ℚ) - (ANIM_START_FRAME : ℚ)) / ((ANIM_END_FRAME : ℚ) - (ANIM_START_FRAME : ℚ))

noncomputable section

/-- `math.radians(d) = d * pi / 180`. -/
def radians (d : ℝ) : ℝ := d * Real.pi / 180

/-- `sweep_angle_rad = math.radians(SHINE_ANGLE_DEG + 90)`. -/
def sweep_angle_rad : ℝ := radians ((SHINE_ANGLE_DEG : ℝ) + 90)

/-- `sweep_map = xx * cos(sweep_angle_rad) + yy * sin(sweep_angle_rad)` at pixel `(x, y)`. -/
def sweep_map (x y : ℕ) : ℝ :=
  (x : ℝ) * Real.cos sweep_angle_rad + (y : ℝ) * Real.sin sweep_angle_rad

/-- The pixel-coordinate grid of a `W x H` icon. -/
def grid (W H : ℕ) : Set (ℕ × ℕ) := Set.Iio W ×ˢ Set.Iio H

/-- All values taken by `sweep_map` on the `W x H` grid. -/
def grid_vals (W H : ℕ) : Set ℝ :=
  Set.image (fun p : ℕ × ℕ => sweep_map p.1 p.2) (grid W H)

/-- `map_min = sweep_map.min()`. -/
def map_min (W H : ℕ) : ℝ := sInf (grid_vals W H)

/-- `map_max = sweep_map.max()`. -/
def map_max (W H : ℕ) : ℝ := sSup (grid_vals W H)

/-- `shine_width_pixels = W * SHINE_WIDTH_FACTOR`. -/
def shine_width_pixels (W : ℕ) : ℝ := (W : ℝ) * (SHINE_WIDTH_FACTOR : ℝ)

/-- `sweep_start_pos = map_min - shine_width_pixels`. -/
def sweep_start_pos (W H : ℕ) : ℝ := map_min W H - shine_width_pixels W

/-- `sweep_end_pos = map_max + shine_width_pixels`. -/
def sweep_end_pos (W H : ℕ) : ℝ := map_max W H + shine_width_pixels W

/-- `sweep_distance = sweep_end_pos - sweep_start_pos`. -/
def sweep_distance (W H : ℕ) : ℝ := sweep_end_pos W H - sweep_start_pos W H

/-- `current_pos = sweep_start_pos + eased_progress * sweep_distance`. -/
def current_pos (W H i : ℕ) : ℝ :=
  sweep_start_pos W H + (ease_out_quad (progress i) : ℝ) * sweep_distance W H

/-- The bar center as a function of an arbitrary eased-progress value `e`. -/
def bar_center (W H : ℕ) (e : ℝ) : ℝ := sweep_start_pos W H + e * sweep_distance W H

/-- `gauss_mask = exp(-(dist_from_center / (shine_width_pixels / 2.5))**2)`. -/
def gauss_mask (W H x y i : ℕ) : ℝ :=
  Real.exp (-((sweep_map x y - current_pos W H i) / (shine_width_pixels W / 2.5)) ^ 2)

/-- `shine_alpha = gauss_mask * icon_alpha_float`; `iconAlpha` is the icon's
normalized alpha channel, prepared by the (external) asset loader. -/
def shine_alpha (iconAlpha : ℕ → ℕ → ℝ) (W H x y i : ℕ) : ℝ :=
  gauss_mask W H x y i * iconAlpha x y

/-- `base_image = icon_bgr_float * icon_alpha_3c`: color channels pre-multiplied
by the icon's own normalized alpha. -/
def base_image (iconBgr : ℕ → ℕ → ℕ → ℝ) (iconAlpha : ℕ → ℕ → ℝ) (x y c : ℕ) : ℝ :=
  iconBgr x y c * iconAlpha x y

/-- The per-pixel alpha-over blend used by the sweep composite:
`(shine_bgr_float * shine_alpha_3c) + (base_image * (1 - shine_alpha_3c))`. -/
def composite_shine_px (fg bg a : ℝ) : ℝ := fg * a + bg * (1 - a)

/-- One frame of the sweep effect before 8-bit conversion: the animated
composite inside `[ANIM_START_FRAME, ANIM_END_FRAME)`, the static base
elsewhere. -/
def frame_float (W H : ℕ) (iconBgr shineBgr : ℕ → ℕ → ℕ → ℝ)
    (iconAlpha : ℕ → ℕ → ℝ) (i x y c : ℕ) : ℝ :=
  if ANIM_START_FRAME ≤ i ∧ i < ANIM_END_FRAME then
    composite_shine_px (shineBgr x y c) (base_image iconBgr iconAlpha x y c)
      (shine_alpha iconAlpha W H x y i)
  else base_image iconBgr iconAlpha x y c

/-- `np.clip(v * 255, 0, 255).astype(np.uint8)`: clip then truncate; the clipped
value is nonnegative, so truncation toward zero is the floor. -/
def to_uint8 (r : ℝ) : ℤ := ⌊min (max (r * 255) 0) 255⌋

/-- The emitted 8-bit frame of the sweep effect. -/
def frame_uint8 (W H : ℕ) (iconBgr shineBgr : ℕ → ℕ → ℕ → ℝ)
    (iconAlpha : ℕ → ℕ → ℝ) (i x y c : ℕ) : ℤ :=
  to_uint8 (frame_float W H iconBgr shineBgr iconAlpha i x y c)

end

end IconShine

namespace YearScroll

/-- `ANIMATION_DURATION_SECONDS = 2.0`. -/
def ANIMATION_DURATION_SECONDS : ℚ := 2

/-- `FPS = 30`. -/
def FPS : ℚ := 30

/-- `FRAME_WIDTH = 1280`. -/
def FRAME_WIDTH : ℕ := 1280

/-- `FRAME_HEIGHT = int(FRAME_WIDTH * (ASPECT_RATIO_H / ASPECT_RATIO_W))` with 9/16. -/
def FRAME_HEIGHT : ℕ := (⌊(FRAME_WIDTH : ℚ) * (9 / 16)⌋).toNat

/-- `MASK_VISIBLE_HEIGHT_FACTOR = 0.20`. -/
def MASK_VISIBLE_HEIGHT_FACTOR : ℚ := 1 / 5

/-- `FEATHER_AMOUNT_PIXELS = 50`. -/
def FEATHER_AMOUNT_PIXELS : ℕ := 50

/-- `ease_in_out_cubic`: `t *= 2; if t < 1: 0.5*t*t*t else t -= 2; 0.5*(t*t*t + 2)`. -/
def ease_in_out_cubic (t : ℚ) : ℚ :=
  if t * 2 < 1 then 1 / 2 * (t * 2) * (t * 2) * (t * 2)
  else 1 / 2 * ((t * 2 - 2) * (t * 2 - 2) * (t * 2 - 2) + 2)

/-- `num_total_frames = int(ANIMATION_DURATION_SECONDS * FPS)`. -/
def num_total_frames : ℕ := (⌊ANIMATION_DURATION_SECONDS * FPS⌋).toNat

/-- `progress = frame_idx / (num_total_frames - 1) if num_total_frames > 1 else 0`. -/
def scroll_progress (frame_idx : ℕ) : ℚ :=
  if 1 < num_total_frames then (frame_idx : ℚ) / ((num_total_frames : ℚ) - 1) else 0

/-- `mask_visible_actual_h = int(FRAME_HEIGHT * MASK_VISIBLE_HEIGHT_FACTOR)`. -/
def mask_visible_actual_h : ℕ := (⌊(FRAME_HEIGHT : ℚ) * MASK_VISIBLE_HEIGHT_FACTOR⌋).toNat

/-- `strip_top = center_y - visible_strip_h // 2` with `center_y = frame_h // 2`. -/
def strip_top (frame_h visible_strip_h : ℕ) : ℤ :=
  ((frame_h / 2 : ℕ) : ℤ) - ((visible_strip_h / 2 : ℕ) : ℤ)

/-- `strip_bottom = center_y + visible_strip_h // 2`. -/
def strip_bottom (frame_h visible_strip_h : ℕ) : ℤ :=
  ((frame_h / 2 : ℕ) : ℤ) + ((visible_strip_h / 2 : ℕ) : ℤ)

/-- `dst_y1_canvas = current_y_pil_top`. -/
def dst_y1 (y_top : ℤ) : ℤ := y_top

/-- `dst_y2_canvas = current_y_pil_top + text_img_h`. -/
def dst_y2 (y_top : ℤ) (text_h : ℕ) : ℤ := y_top + (text_h : ℤ)

/-- `eff_dst_y1 = max(0, dst_y1_canvas)`. -/
def eff_dst_y1 (y_top : ℤ) : ℤ := max 0 (dst_y1 y_top)

/-- `eff_dst_y2 = min(FRAME_HEIGHT, dst_y2_canvas)`. -/
def eff_dst_y2 (y_top : ℤ) (text_h : ℕ) : ℤ := min (FRAME_HEIGHT : ℤ) (dst_y2 y_top text_h)

/-- `eff_src_y1_text_img = src_y1_text_img + (eff_dst_y1 - dst_y1_canvas)` with
`src_y1_text_img = 0`. -/
def eff_src_y1 (y_top : ℤ) : ℤ := 0 + (eff_dst_y1 y_top - dst_y1 y_top)

/-- `eff_src_y2_text_img = src_y2_text_img - (dst_y2_canvas - eff_dst_y2)` with
`src_y2_text_img = text_img_h`. -/
def eff_src_y2 (y_top : ℤ) (text_h : ℕ) : ℤ :=
  (text_h : ℤ) - (dst_y2 y_top text_h - eff_dst_y2 y_top text_h)

/-- `dst_x_offset_canvas = (FRAME_WIDTH - text_img_w) // 2`; Python `//` is
floor division, negative when the text block is wider than the frame. -/
def dst_x_offset_canvas (text_w : ℕ) : ℤ := Int.fdiv ((FRAME_WIDTH : ℤ) - (text_w : ℤ)) 2

/-- `dst_x1_canvas = dst_x_offset_canvas`. -/
def dst_x1 (text_w : ℕ) : ℤ := dst_x_offset_canvas text_w

/-- `dst_x2_canvas = dst_x_offset_canvas + text_img_w`. -/
def dst_x2 (text_w : ℕ) : ℤ := dst_x_offset_canvas text_w + (text_w : ℤ)

/-- `eff_dst_x1 = max(0, dst_x1_canvas)`. -/
def eff_dst_x1 (text_w : ℕ) : ℤ := max 0 (dst_x1 text_w)

/-- `eff_dst_x2 = min(FRAME_WIDTH, dst_x2_canvas)`. -/
def eff_dst_x2 (text_w : ℕ) : ℤ := min (FRAME_WIDTH : ℤ) (dst_x2 text_w)

/-- `eff_src_x1_text_img = 0 + (eff_dst_x1 - dst_x1_canvas)`. -/
def eff_src_x1 (text_w : ℕ) : ℤ := 0 + (eff_dst_x1 text_w - dst_x1 text_w)

/-- `eff_src_x2_text_img = text_img_w - (dst_x2_canvas - eff_dst_x2)`. -/
def eff_src_x2 (text_w : ℕ) : ℤ := (text_w : ℤ) - (dst_x2 text_w - eff_dst_x2 text_w)

/-- The guard of the paste:
`eff_dst_y2 > eff_dst_y1 and eff_dst_x2 > eff_dst_x1 and eff_src_y2 > eff_src_y1
and eff_src_x2 > eff_src_x1` (the subsequent `source_slice.size > 0` check is
implied by these strict inequalities). -/
def paste_nonempty (y_top : ℤ) (text_h text_w : ℕ) : Prop :=
  eff_dst_y1 y_top < eff_dst_y2 y_top text_h ∧ eff_dst_x1 text_w < eff_dst_x2 text_w
  ∧ eff_src_y1 y_top < eff_src_y2 y_top text_h ∧ eff_src_x1 text_w < eff_src_x2 text_w

instance (y_top : ℤ) (text_h text_w : ℕ) : Decidable (paste_nonempty y_top text_h text_w) := by
  unfold paste_nonempty
  infer_instance

/-- `temp_scrolled_text_canvas_bgra`: an all-zero BGRA canvas into which the
clipped slice of the text image is pasted; `text` is the pre-rendered text
image, indexed `(row, column, channel)`. -/
def scrolled_canvas (text : ℕ → ℕ → ℕ → ℕ) (y_top : ℤ) (text_h text_w : ℕ)
    (yy xx cc : ℕ) : ℕ :=
  if paste_nonempty y_top text_h text_w
      ∧ eff_dst_y1 y_top ≤ (yy : ℤ) ∧ (yy : ℤ) < eff_dst_y2 y_top text_h
      ∧ eff_dst_x1 text_w ≤ (xx : ℤ) ∧ (xx : ℤ) < eff_dst_x2 text_w then
    text (eff_src_y1 y_top + ((yy : ℤ) - eff_dst_y1 y_top)).toNat
      (eff_src_x1 text_w + ((xx : ℤ) - eff_dst_x1 text_w)).toNat cc
  else 0

noncomputable section

/-- Numpy store of a float into a `uint8` array truncates toward zero. -/
def real_trunc (r : ℝ) : ℤ := if r < 0 then ⌈r⌉ else ⌊r⌋

/-- The per-pixel scroll blend with `uint8` store:
`final_frame_bgr[c] = final_frame_bgr[c] * (1 - combined_alpha) + scrolled[c] * combined_alpha`,
where both stored channels are 8-bit values. -/
def scroll_blend_px (bgv fgv : ℕ) (a : ℝ) : ℤ :=
  real_trunc ((bgv : ℝ) * (1 - a) + (fgv : ℝ) * a)

/-- The binary rectangular band drawn by
`cv2.rectangle(mask, (0, strip_top), (frame_w, strip_bottom), 255, -1)`:
rows `strip_top` to `strip_bottom` inclusive, all columns of the mask. -/
def binary_strip (frame_w frame_h visible_strip_h : ℕ) (x y : ℕ) : ℝ :=
  if (x : ℤ) < (frame_w : ℤ) ∧ strip_top frame_h visible_strip_h ≤ (y : ℤ)
      ∧ (y : ℤ) ≤ strip_bottom frame_h visible_strip_h then 255 else 0

/-- OpenCV sigma for `GaussianBlur` with `sigmaX = 0`:
`0.3 * ((ksize - 1) * 0.5 - 1) + 0.8`. -/
def gaussian_sigma (ksize : ℕ) : ℝ := 0.3 * (((ksize : ℝ) - 1) * 0.5 - 1) + 0.8

/-- Unnormalized Gaussian kernel coefficient at tap `j`. -/
def gaussian_coeff (ksize j : ℕ) : ℝ :=
  Real.exp (-(((j : ℝ) - ((ksize : ℝ) - 1) / 2) ^ 2) / (2 * gaussian_sigma ksize ^ 2))

/-- Normalized Gaussian kernel tap. -/
def gaussian_kernel (ksize j : ℕ) : ℝ :=
  gaussian_coeff ksize j / ∑ m ∈ Finset.range ksize, gaussian_coeff ksize m

/-- OpenCV default border `BORDER_REFLECT_101` (single reflection suffices
here since the kernel radius is smaller than the image side). -/
def reflect101 (n : ℕ) (p : ℤ) : ℤ :=
  if p < 0 then -p else if (n : ℤ) ≤ p then 2 * (n : ℤ) - 2 - p else p

/-- Horizontal pass of the separable Gaussian filter. -/
def blur_horiz (ksize frame_w : ℕ) (img : ℕ → ℕ → ℝ) (x y : ℕ) : ℝ :=
  ∑ j ∈ Finset.range ksize,
    gaussian_kernel ksize j *
      img (reflect101 frame_w ((x : ℤ) + (j : ℤ) - ((ksize : ℤ) - 1) / 2)).toNat y

/-- Vertical pass of the separable Gaussian filter. -/
def blur_vert (ksize frame_h : ℕ) (img : ℕ → ℕ → ℝ) (x y : ℕ) : ℝ :=
  ∑ j ∈ Finset.range ksize,
    gaussian_kernel ksize j *
      img x (reflect101 frame_h ((y : ℤ) + (j : ℤ) - ((ksize : ℤ) - 1) / 2)).toNat

/-- `cv2.GaussianBlur(mask, (blur_ksize, blur_ksize), 0)` as a separable filter. -/
def gaussian_blur (ksize frame_w frame_h : ℕ) (img : ℕ → ℕ → ℝ) : ℕ → ℕ → ℝ :=
  blur_vert ksize frame_h (blur_horiz ksize frame_w img)

/-- `create_feathered_mask`: the binary strip blurred with kernel size
`feather_px * 2 + 1`. -/
def create_feathered_mask (frame_w frame_h visible_strip_h feather_px : ℕ) : ℕ → ℕ → ℝ :=
  gaussian_blur (feather_px * 2 + 1) frame_w frame_h
    (binary_strip frame_w frame_h visible_strip_h)

/-- The 8-bit feathered mask, computed once before the frame loop with the
script's constants. -/
def feathered_mask_u8 (x y : ℕ) : ℤ :=
  round (create_feathered_mask FRAME_WIDTH FRAME_HEIGHT mask_visible_actual_h
    FEATHER_AMOUNT_PIXELS x y)

/-- `feathered_mask_normalized = feathered_mask.astype(float32) / 255`. -/
def feathered_mask_normalized (x y : ℕ) : ℝ := ((feathered_mask_u8 x y : ℝ)) / 255

/-- `combined_alpha = scrolled_alpha * feathered_mask_normalized`, computed for
the frame whose clipped paste offset is `y_top`; rows `yy`, columns `xx`. -/
def combined_alpha (text : ℕ → ℕ → ℕ → ℕ) (y_top : ℤ) (text_h text_w : ℕ)
    (yy xx : ℕ) : ℝ :=
  ((scrolled_canvas text y_top text_h text_w yy xx 3 : ℝ) / 255)
    * feathered_mask_normalized xx yy

end

end YearScroll

/-- A decoded raster image as handed to the engine: a channel count (3 for BGR,
4 for BGRA) and per-pixel 8-bit channel values indexed `(x, y, channel)`. -/
structure RawImage where
  channels : ℕ
  px : ℕ → ℕ → ℕ → ℕ

namespace IconShine

/-- Input normalization:
`if icon.shape[2] == 3: icon = cv2.cvtColor(icon, cv2.COLOR_BGR2BGRA); icon[:, :, 3] = 255`.
The BGR-to-BGRA conversion keeps the three color planes and appends an alpha
plane, which is then overwritten with 255 everywhere. -/
def ensure_alpha (img : RawImage) : RawImage :=
  if img.channels = 3 then
    ⟨4, fun x y c => if c = 3 then 255 else img.px x y c⟩
  else img

end IconShine

/-- Claim C4: the number of generated frames is `int(total_duration * fps)`, which
for the concrete configurations equals `round(total_duration * fps)`: the sweep
generates 75 frames (duration 2.5 s at 30 fps) and the scroll 60 frames
(duration 2.0 s at 30 fps), each fully determined by the fixed timeline constants. -/
theorem C4_total_frame_counts :
    IconShine.TOTAL_FRAMES = 75
    ∧ (75 : ℤ) = round (IconShine.TOTAL_DURATION * IconShine.FPS)
    ∧ YearScroll.num_total_frames = 60
    ∧ (60 : ℤ) = round (YearScroll.ANIMATION_DURATION_SECONDS * YearScroll.FPS) := by
  refine ⟨?_, ?_, ?_, ?_⟩ <;>
    norm_num [IconShine.TOTAL_FRAMES, IconShine.TOTAL_DURATION, IconShine.FPS,
      YearScroll.num_total_frames, YearScroll.ANIMATION_DURATION_SECONDS, YearScroll.FPS] <;>
    rfl

/-- Claim C5: both easing functions map `[0,1]` into `[0,1]`, send 0 to 0 and
1 to 1, and are monotone non-decreasing on `[0,1]`. -/
theorem C5_easing_contract :
    (∀ t : ℚ, 0 ≤ t → t ≤ 1 →
        0 ≤ IconShine.ease_out_quad t ∧ IconShine.ease_out_quad t ≤ 1)
    ∧ IconShine.ease_out_quad 0 = 0 ∧ IconShine.ease_out_quad 1 = 1
    ∧ (∀ s t : ℚ, 0 ≤ s → s ≤ t → t ≤ 1 →
        IconShine.ease_out_quad s ≤ IconShine.ease_out_quad t)
    ∧ (∀ t : ℚ, 0 ≤ t → t ≤ 1 →
        0 ≤ YearScroll.ease_in_out_cubic t ∧ YearScroll.ease_in_out_cubic t ≤ 1)
    ∧ YearScroll.ease_in_out_cubic 0 = 0 ∧ YearScroll.ease_in_out_cubic 1 = 1
    ∧ (∀ s t : ℚ, 0 ≤ s → s ≤ t → t ≤ 1 →
        YearScroll.ease_in_out_cubic s ≤ YearScroll.ease_in_out_cubic t) := by
  refine ⟨?_, by norm_num [IconShine.ease_out_quad], by norm_num [IconShine.ease_out_quad],
    ?_, ?_, by norm_num [YearScroll.ease_in_out_cubic],
    by norm_num [YearScroll.ease_in_out_cubic], ?_⟩
  · intro t h0 h1
    unfold IconShine.ease_out_quad
    constructor <;> nlinarith [mul_nonneg h0 h0, sq_nonneg (1 - t)]
  · intro s t hs hst ht
    unfold IconShine.ease_out_quad
    nlinarith [mul_nonneg (sub_nonneg.mpr hst) (by linarith : (0 : ℚ) ≤ (1 - s) + (1 - t))]
  · intro t h0 h1
    unfold YearScroll.ease_in_out_cubic
    split
    · constructor <;> nlinarith [mul_nonneg h0 h0, mul_nonneg (mul_nonneg h0 h0) h0]
    · rename_i hbr
      push_neg at hbr
      constructor <;> nlinarith [sq_nonneg (t * 2 - 2), sq_nonneg (t * 2 - 1)]
  · intro s t hs hst ht
    have hs1 : s ≤ 1 := le_trans hst ht
    unfold YearScroll.ease_in_out_cubic
    split
    · rename_i hsbr
      split
      · rename_i htbr
        nlinarith [mul_nonneg hs (le_trans hs hst), sq_nonneg (s + t), sq_nonneg (s - t),
          mul_nonneg (mul_nonneg hs hs) (sub_nonneg.mpr hst)]
      · rename_i htbr
        push_neg at htbr
        nlinarith [mul_nonneg hs (mul_nonneg hs hs), sq_nonneg (t * 2 - 1),
          mul_nonneg (sub_nonneg.mpr (by linarith : (1 : ℚ) ≤ t * 2))
            (sq_nonneg (t * 2 - 2)), sq_nonneg (s * 2 - 1)]
    · rename_i hsbr
      push_neg at hsbr
      split
      · rename_i htbr
        exact absurd (by linarith : t * 2 < 1) (by linarith)
      · rename_i htbr
        push_neg at htbr
        nlinarith [sq_nonneg ((s * 2 - 2) + (t * 2 - 2)), sq_nonneg ((s * 2 - 2) - (t * 2 - 2)),
          mul_nonneg (sub_nonneg.mpr hst) (sq_nonneg (t * 2 - 2))]

theorem IconShine.anim_start_frame_eq : IconShine.ANIM_START_FRAME = 15 := by
  norm_num [IconShine.ANIM_START_FRAME, IconShine.ANIM_START_TIME, IconShine.FPS]
  rfl

theorem IconShine.anim_end_frame_eq : IconShine.ANIM_END_FRAME = 45 := by
  norm_num [IconShine.ANIM_END_FRAME, IconShine.ANIM_DURATION, IconShine.FPS,
    IconShine.anim_start_frame_eq]
  rfl

theorem YearScroll.num_total_frames_eq : YearScroll.num_total_frames = 60 := by
  norm_num [YearScroll.num_total_frames, YearScroll.ANIMATION_DURATION_SECONDS, YearScroll.FPS]
  rfl

/-- Counterexample to claim C3: the sweep's animated window has 30 frames
(more than 1), yet the progress computed on the last animated frame
(index `ANIM_END_FRAME - 1 = 44`) is `29/30`, not exactly 1. -/
theorem C3_counterexample :
    1 < IconShine.ANIM_END_FRAME - IconShine.ANIM_START_FRAME
    ∧ IconShine.progress (IconShine.ANIM_END_FRAME - 1) ≠ 1 := by
  rw [IconShine.anim_start_frame_eq, IconShine.anim_end_frame_eq]
  refine ⟨by norm_num, ?_⟩
  norm_num [IconShine.progress, IconShine.anim_start_frame_eq, IconShine.anim_end_frame_eq]

/-- Claim C3 as amended: for both animations the progress handed to the easing
function lies in `[0,1]`; the scroll's last frame yields exactly progress 1 when
the frame count exceeds 1; but the sweep's last animated frame yields
`(n-1)/n` (with `n` the animated-window frame count), which is strictly
below 1, not exactly 1. -/
theorem C3_progress_bounds :
    (∀ i : ℕ, IconShine.ANIM_START_FRAME ≤ i → i < IconShine.ANIM_END_FRAME →
        0 ≤ IconShine.progress i ∧ IconShine.progress i ≤ 1)
    ∧ IconShine.progress (IconShine.ANIM_END_FRAME - 1)
        = ((IconShine.ANIM_END_FRAME : ℚ) - (IconShine.ANIM_START_FRAME : ℚ) - 1)
          / ((IconShine.ANIM_END_FRAME : ℚ) - (IconShine.ANIM_START_FRAME : ℚ))
    ∧ IconShine.progress (IconShine.ANIM_END_FRAME - 1) < 1
    ∧ (∀ idx : ℕ, idx < YearScroll.num_total_frames →
        0 ≤ YearScroll.scroll_progress idx ∧ YearScroll.scroll_progress idx ≤ 1)
    ∧ (1 < YearScroll.num_total_frames →
        YearScroll.scroll_progress (YearScroll.num_total_frames - 1) = 1) := by
  refine ⟨?_, ?_, ?_, ?_, ?_⟩
  · intro i h1 h2
    rw [IconShine.anim_start_frame_eq] at h1
    rw [IconShine.anim_end_frame_eq] at h2
    have hc1 : (15 : ℚ) ≤ (i : ℚ) := by exact_mod_cast h1
    have hc2 : (i : ℚ) < 45 := by exact_mod_cast h2
    unfold IconShine.progress
    rw [IconShine.anim_start_frame_eq, IconShine.anim_end_frame_eq]
    constructor
    · apply div_nonneg <;> push_cast <;> linarith
    · rw [div_le_one (by push_cast; linarith)]
      push_cast
      linarith
  · rw [IconShine.anim_start_frame_eq, IconShine.anim_end_frame_eq]
    norm_num [IconShine.progress, IconShine.anim_start_frame_eq, IconShine.anim_end_frame_eq]
  · norm_num [IconShine.progress, IconShine.anim_start_frame_eq, IconShine.anim_end_frame_eq]
  · intro idx hidx
    rw [YearScroll.num_total_frames_eq] at hidx
    have hc : (idx : ℚ) ≤ 59 := by exact_mod_cast Nat.lt_succ_iff.mp hidx
    unfold YearScroll.scroll_progress
    rw [YearScroll.num_total_frames_eq]
    norm_num
    constructor
    · apply div_nonneg
      · positivity
      · norm_num
    · rw [div_le_one (by norm_num)]
      linarith
  · intro _
    unfold YearScroll.scroll_progress
    rw [YearScroll.num_total_frames_eq]
    norm_num

/-- Witness for the amended C3 at sweep frame 20 and the scroll's final frame. -/
theorem C3_progress_bounds_witness :
    (0 ≤ IconShine.progress 20 ∧ IconShine.progress 20 ≤ 1)
    ∧ YearScroll.scroll_progress (YearScroll.num_total_frames - 1) = 1 :=
  ⟨C3_progress_bounds.1 20
      (by rw [IconShine.anim_start_frame_eq]; norm_num)
      (by rw [IconShine.anim_end_frame_eq]; norm_num),
   C3_progress_bounds.2.2.2.2 (by rw [YearScroll.num_total_frames_eq]; norm_num)⟩

/-- Claim C1: inside the animated window the sweep frame's value at pixel
`(x, y)`, channel `c`, is `shine * alpha + base * (1 - alpha)` with
`alpha = exp(-((sweep_map - current_pos) / (shine_width / 2.5))^2)` times the
icon's normalized alpha, `sweep_map = x*cos(theta) + y*sin(theta)` for
`theta = radians(-60 + 90)`, and
`current_pos = sweep_start + ease_out_quad(progress) * (sweep_end - sweep_start)`. -/
theorem C1_sweep_pixel_formula (W H : ℕ) (iconBgr shineBgr : ℕ → ℕ → ℕ → ℝ)
    (iconAlpha : ℕ → ℕ → ℝ) (i x y c : ℕ)
    (h1 : IconShine.ANIM_START_FRAME ≤ i) (h2 : i < IconShine.ANIM_END_FRAME) :
    IconShine.frame_float W H iconBgr shineBgr iconAlpha i x y c
      = shineBgr x y c *
          (Real.exp (-((((x : ℝ) * Real.cos (((-60 : ℝ) + 90) * Real.pi / 180)
                + (y : ℝ) * Real.sin (((-60 : ℝ) + 90) * Real.pi / 180))
              - (IconShine.sweep_start_pos W H
                  + (IconShine.ease_out_quad (IconShine.progress i) : ℝ)
                    * (IconShine.sweep_end_pos W H - IconShine.sweep_start_pos W H)))
              / ((W : ℝ) * (1 / 4) / 2.5)) ^ 2) * iconAlpha x y)
        + IconShine.base_image iconBgr iconAlpha x y c *
          (1 - Real.exp (-((((x : ℝ) * Real.cos (((-60 : ℝ) + 90) * Real.pi / 180)
                + (y : ℝ) * Real.sin (((-60 : ℝ) + 90) * Real.pi / 180))
              - (IconShine.sweep_start_pos W H
                  + (IconShine.ease_out_quad (IconShine.progress i) : ℝ)
                    * (IconShine.sweep_end_pos W H - IconShine.sweep_start_pos W H)))
              / ((W : ℝ) * (1 / 4) / 2.5)) ^ 2) * iconAlpha x y) := by
  unfold IconShine.frame_float
  rw [if_pos ⟨h1, h2⟩]
  unfold IconShine.composite_shine_px IconShine.shine_alpha IconShine.gauss_mask
    IconShine.current_pos IconShine.sweep_distance IconShine.sweep_map
    IconShine.sweep_angle_rad IconShine.radians IconShine.shine_width_pixels
    IconShine.SHINE_WIDTH_FACTOR IconShine.SHINE_ANGLE_DEG
  norm_num

/-- Witness for C1 at frame 20 of a 1x1 fully transparent icon: the animated
composite of all-zero layers evaluates to zero. -/
theorem C1_sweep_pixel_formula_witness :
    IconShine.frame_float 1 1 (fun _ _ _ => 0) (fun _ _ _ => 0) (fun _ _ => 0) 20 0 0 0 = 0 := by
  rw [C1_sweep_pixel_formula 1 1 (fun _ _ _ => 0) (fun _ _ _ => 0) (fun _ _ => 0) 20 0 0 0
    (by rw [IconShine.anim_start_frame_eq]; norm_num)
    (by rw [IconShine.anim_end_frame_eq]; norm_num)]
  simp [IconShine.base_image]

/-- Claim C2: every sweep frame with index below `ANIM_START_FRAME` or at or
above `ANIM_END_FRAME` equals the static base composite (color channels
pre-multiplied by alpha, no shine term), both in float form and after the
shared 8-bit conversion, hence all such frames are bit-identical. -/
theorem C2_static_outside_window (W H : ℕ) (iconBgr shineBgr : ℕ → ℕ → ℕ → ℝ)
    (iconAlpha : ℕ → ℕ → ℝ) (i x y c : ℕ)
    (h : i < IconShine.ANIM_START_FRAME ∨ IconShine.ANIM_END_FRAME ≤ i) :
    IconShine.frame_float W H iconBgr shineBgr iconAlpha i x y c
      = IconShine.base_image iconBgr iconAlpha x y c
    ∧ IconShine.frame_uint8 W H iconBgr shineBgr iconAlpha i x y c
      = IconShine.to_uint8 (IconShine.base_image iconBgr iconAlpha x y c) := by
  have hcond : ¬(IconShine.ANIM_START_FRAME ≤ i ∧ i < IconShine.ANIM_END_FRAME) := by omega
  refine ⟨?_, ?_⟩
  · unfold IconShine.frame_float
    rw [if_neg hcond]
  · unfold IconShine.frame_uint8 IconShine.frame_float
    rw [if_neg hcond]

/-- Witness for C2 at frame 0 (before the animated window). -/
theorem C2_static_outside_window_witness :
    IconShine.frame_float 1 1 (fun _ _ _ => 1) (fun _ _ _ => 1) (fun _ _ => 1) 0 0 0 0
      = IconShine.base_image (fun _ _ _ => 1) (fun _ _ => 1) 0 0 0 :=
  (C2_static_outside_window 1 1 (fun _ _ _ => 1) (fun _ _ _ => 1) (fun _ _ => 1) 0 0 0 0
    (Or.inl (by rw [IconShine.anim_start_frame_eq]; norm_num))).1

/-- Claim C6: for any pixel values, blending with an all-zero mask returns the
base layer unchanged, and blending with an all-one combined alpha returns
exactly the foreground's channel value, in both the sweep composite (float)
and the scroll composite (with its `uint8` store). -/
theorem C6_composite_zero_one_mask (b f : ℝ) (bgv fgv : ℕ) :
    IconShine.composite_shine_px f b 0 = b
    ∧ IconShine.composite_shine_px f b 1 = f
    ∧ YearScroll.scroll_blend_px bgv fgv 0 = (bgv : ℤ)
    ∧ YearScroll.scroll_blend_px bgv fgv 1 = (fgv : ℤ) := by
  refine ⟨by simp [IconShine.composite_shine_px],
    by simp [IconShine.composite_shine_px], ?_, ?_⟩
  · unfold YearScroll.scroll_blend_px YearScroll.real_trunc
    rw [show ((bgv : ℝ) * (1 - 0) + (fgv : ℝ) * 0 : ℝ) = (bgv : ℝ) by ring]
    rw [if_neg (not_lt.mpr (Nat.cast_nonneg bgv))]
    exact Int.floor_natCast bgv
  · unfold YearScroll.scroll_blend_px YearScroll.real_trunc
    rw [show ((bgv : ℝ) * (1 - 1) + (fgv : ℝ) * 1 : ℝ) = (fgv : ℝ) by ring]
    rw [if_neg (not_lt.mpr (Nat.cast_nonneg fgv))]
    exact Int.floor_natCast fgv

theorem IconShine.grid_vals_finite (W H : ℕ) : (IconShine.grid_vals W H).Finite :=
  Set.Finite.image _ ((Set.finite_Iio W).prod (Set.finite_Iio H))

theorem IconShine.mem_grid_vals (W H x y : ℕ) (hx : x < W) (hy : y < H) :
    IconShine.sweep_map x y ∈ IconShine.grid_vals W H :=
  ⟨(x, y), Set.mem_prod.mpr ⟨Set.mem_Iio.mpr hx, Set.mem_Iio.mpr hy⟩, rfl⟩

/-- Claim C7: the sweep computes `shine_width = W * SHINE_WIDTH_FACTOR`,
`sweep_start = min(sweep_map) - shine_width`, `sweep_end = max(sweep_map) +
shine_width`; the per-frame center interpolates between them, and at eased
progress 0 and 1 the band center is at least `shine_width` away from every
value of `sweep_map` (fully off-frame at both ends). -/
theorem C7_sweep_band_off_frame (W H : ℕ) :
    IconShine.shine_width_pixels W = (W : ℝ) * (IconShine.SHINE_WIDTH_FACTOR : ℝ)
    ∧ IconShine.sweep_start_pos W H = IconShine.map_min W H - IconShine.shine_width_pixels W
    ∧ IconShine.sweep_end_pos W H = IconShine.map_max W H + IconShine.shine_width_pixels W
    ∧ (∀ i : ℕ, IconShine.current_pos W H i
        = IconShine.bar_center W H ((IconShine.ease_out_quad (IconShine.progress i) : ℝ)))
    ∧ (∀ x, x < W → ∀ y, y < H →
        IconShine.bar_center W H 0 ≤ IconShine.sweep_map x y - IconShine.shine_width_pixels W
        ∧ IconShine.sweep_map x y + IconShine.shine_width_pixels W
            ≤ IconShine.bar_center W H 1) := by
  refine ⟨rfl, rfl, rfl, fun i => rfl, ?_⟩
  intro x hx y hy
  have hmem := IconShine.mem_grid_vals W H x y hx hy
  have hmin : IconShine.map_min W H ≤ IconShine.sweep_map x y :=
    csInf_le (IconShine.grid_vals_finite W H).bddBelow hmem
  have hmax : IconShine.sweep_map x y ≤ IconShine.map_max W H :=
    le_csSup (IconShine.grid_vals_finite W H).bddAbove hmem
  constructor
  · have h0 : IconShine.bar_center W H 0 = IconShine.sweep_start_pos W H := by
      unfold IconShine.bar_center
      ring
    rw [h0]
    unfold IconShine.sweep_start_pos
    linarith
  · have h1 : IconShine.bar_center W H 1 = IconShine.sweep_end_pos W H := by
      unfold IconShine.bar_center IconShine.sweep_distance
      ring
    rw [h1]
    unfold IconShine.sweep_end_pos
    linarith

/-- Witness for C7 on a 1x1 icon at pixel `(0, 0)`. -/
theorem C7_sweep_band_off_frame_witness :
    IconShine.bar_center 1 1 0 ≤ IconShine.sweep_map 0 0 - IconShine.shine_width_pixels 1
    ∧ IconShine.sweep_map 0 0 + IconShine.shine_width_pixels 1 ≤ IconShine.bar_center 1 1 1 :=
  (C7_sweep_band_off_frame 1 1).2.2.2.2 0 (by norm_num) 0 (by norm_num)

/-- Witness for C5 at `t = 1/3` and the pair `s = 1/4 ≤ t = 3/4`. -/
theorem C5_easing_contract_witness :
    (0 ≤ IconShine.ease_out_quad (1 / 3) ∧ IconShine.ease_out_quad (1 / 3) ≤ 1)
    ∧ YearScroll.ease_in_out_cubic (1 / 4) ≤ YearScroll.ease_in_out_cubic (3 / 4) :=
  ⟨C5_easing_contract.1 (1 / 3) (by norm_num) (by norm_num),
   C5_easing_contract.2.2.2.2.2.2.2 (1 / 4) (3 / 4) (by norm_num) (by norm_num) (by norm_num)⟩

theorem YearScroll.frame_height_eq : YearScroll.FRAME_HEIGHT = 720 := by
  norm_num [YearScroll.FRAME_HEIGHT, YearScroll.FRAME_WIDTH]
  rfl

theorem YearScroll.mask_visible_actual_h_eq : YearScroll.mask_visible_actual_h = 144 := by
  norm_num [YearScroll.mask_visible_actual_h, YearScroll.frame_height_eq,
    YearScroll.MASK_VISIBLE_HEIGHT_FACTOR]
  rfl

/-- Claim C8: the scroll's feathered mask is the binary rectangular band
(rows `strip_top` to `strip_bottom`, centered on the frame's vertical middle,
extent `144 = int(FRAME_HEIGHT * MASK_VISIBLE_HEIGHT_FACTOR)` rows apart at the
script's constants) blurred with a Gaussian kernel of size `2*feather_px + 1`;
it is a single precomputed mask, and the per-frame combined alpha multiplies by
that same mask whatever the frame's scroll offset is. -/
theorem C8_feathered_mask_construction :
    (∀ w h vh f : ℕ, YearScroll.create_feathered_mask w h vh f
        = YearScroll.gaussian_blur (2 * f + 1) w h (YearScroll.binary_strip w h vh))
    ∧ (∀ w h vh x y : ℕ, YearScroll.binary_strip w h vh x y = 0
        ∨ YearScroll.binary_strip w h vh x y = 255)
    ∧ (∀ h vh : ℕ, YearScroll.strip_top h vh + YearScroll.strip_bottom h vh
        = 2 * ((h / 2 : ℕ) : ℤ))
    ∧ ((YearScroll.mask_visible_actual_h : ℚ)
        = (YearScroll.FRAME_HEIGHT : ℚ) * YearScroll.MASK_VISIBLE_HEIGHT_FACTOR)
    ∧ YearScroll.strip_top YearScroll.FRAME_HEIGHT YearScroll.mask_visible_actual_h = 288
    ∧ YearScroll.strip_bottom YearScroll.FRAME_HEIGHT YearScroll.mask_visible_actual_h = 432
    ∧ YearScroll.strip_bottom YearScroll.FRAME_HEIGHT YearScroll.mask_visible_actual_h
        - YearScroll.strip_top YearScroll.FRAME_HEIGHT YearScroll.mask_visible_actual_h
        = (YearScroll.mask_visible_actual_h : ℤ)
    ∧ (∀ (text : ℕ → ℕ → ℕ → ℕ) (y_top : ℤ) (text_h text_w yy xx : ℕ),
        YearScroll.combined_alpha text y_top text_h text_w yy xx
          = ((YearScroll.scrolled_canvas text y_top text_h text_w yy xx 3 : ℝ) / 255)
            * ((YearScroll.feathered_mask_u8 xx yy : ℝ) / 255)) := by
  refine ⟨?_, ?_, ?_, ?_, ?_, ?_, ?_, ?_⟩
  · intro w h vh f
    simp [YearScroll.create_feathered_mask, Nat.mul_comm]
  · intro w h vh x y
    unfold YearScroll.binary_strip
    split
    · right; rfl
    · left; rfl
  · intro h vh
    unfold YearScroll.strip_top YearScroll.strip_bottom
    ring
  · rw [YearScroll.mask_visible_actual_h_eq, YearScroll.frame_height_eq]
    norm_num [YearScroll.MASK_VISIBLE_HEIGHT_FACTOR]
  · rw [YearScroll.mask_visible_actual_h_eq, YearScroll.frame_height_eq]
    unfold YearScroll.strip_top
    norm_num
  · rw [YearScroll.mask_visible_actual_h_eq, YearScroll.frame_height_eq]
    unfold YearScroll.strip_bottom
    norm_num
  · rw [YearScroll.mask_visible_actual_h_eq, YearScroll.frame_height_eq]
    unfold YearScroll.strip_top YearScroll.strip_bottom
    norm_num
  · intro text y_top text_h text_w yy xx
    rfl

/-- Claim C9: a 3-channel input gets an all-255 alpha plane appended before
any further processing, its color channels are untouched, and any 3- or
4-channel input leaves normalization with exactly 4 channels. -/
theorem C9_alpha_synthesis (img : RawImage) :
    (img.channels = 3 →
      (IconShine.ensure_alpha img).channels = 4
      ∧ (∀ x y : ℕ, (IconShine.ensure_alpha img).px x y 3 = 255)
      ∧ (∀ x y c : ℕ, c < 3 → (IconShine.ensure_alpha img).px x y c = img.px x y c))
    ∧ (img.channels = 3 ∨ img.channels = 4 → (IconShine.ensure_alpha img).channels = 4) := by
  constructor
  · intro h3
    unfold IconShine.ensure_alpha
    rw [if_pos h3]
    refine ⟨rfl, fun x y => rfl, fun x y c hc => ?_⟩
    have : c ≠ 3 := by omega
    simp [this]
  · intro h34
    unfold IconShine.ensure_alpha
    rcases h34 with h3 | h4
    · rw [if_pos h3]
    · by_cases h3 : img.channels = 3
      · rw [if_pos h3]
      · rw [if_neg h3]
        exact h4

/-- Witness for C9 on a concrete 3-channel image. -/
theorem C9_alpha_synthesis_witness :
    (IconShine.ensure_alpha ⟨3, fun _ _ _ => 7⟩).channels = 4
    ∧ (IconShine.ensure_alpha ⟨3, fun _ _ _ => 7⟩).px 0 0 3 = 255 :=
  ⟨((C9_alpha_synthesis ⟨3, fun _ _ _ => 7⟩).1 rfl).1,
   ((C9_alpha_synthesis ⟨3, fun _ _ _ => 7⟩).1 rfl).2.1 0 0⟩

/-- Claim C10: for every integer paste offset `y_top` and text-image size, the
clipped destination and source rectangles have equal extents on each axis, all
four clipped bounds lie inside the canvas and the text image respectively, and
every canvas pixel outside the pasted region is zero (fully transparent). -/
theorem C10_clip_paste_safe (y_top : ℤ) (text_h text_w : ℕ) (text : ℕ → ℕ → ℕ → ℕ) :
    YearScroll.eff_dst_y2 y_top text_h - YearScroll.eff_dst_y1 y_top
      = YearScroll.eff_src_y2 y_top text_h - YearScroll.eff_src_y1 y_top
    ∧ YearScroll.eff_dst_x2 text_w - YearScroll.eff_dst_x1 text_w
      = YearScroll.eff_src_x2 text_w - YearScroll.eff_src_x1 text_w
    ∧ 0 ≤ YearScroll.eff_dst_y1 y_top
    ∧ YearScroll.eff_dst_y2 y_top text_h ≤ (YearScroll.FRAME_HEIGHT : ℤ)
    ∧ 0 ≤ YearScroll.eff_dst_x1 text_w
    ∧ YearScroll.eff_dst_x2 text_w ≤ (YearScroll.FRAME_WIDTH : ℤ)
    ∧ 0 ≤ YearScroll.eff_src_y1 y_top
    ∧ YearScroll.eff_src_y2 y_top text_h ≤ (text_h : ℤ)
    ∧ 0 ≤ YearScroll.eff_src_x1 text_w
    ∧ YearScroll.eff_src_x2 text_w ≤ (text_w : ℤ)
    ∧ (∀ yy xx cc : ℕ,
        ¬(YearScroll.eff_dst_y1 y_top ≤ (yy : ℤ)
            ∧ (yy : ℤ) < YearScroll.eff_dst_y2 y_top text_h
            ∧ YearScroll.eff_dst_x1 text_w ≤ (xx : ℤ)
            ∧ (xx : ℤ) < YearScroll.eff_dst_x2 text_w) →
        YearScroll.scrolled_canvas text y_top text_h text_w yy xx cc = 0) := by
  refine ⟨?_, ?_, ?_, ?_, ?_, ?_, ?_, ?_, ?_, ?_, ?_⟩
  · unfold YearScroll.eff_src_y2 YearScroll.eff_src_y1 YearScroll.eff_dst_y2
      YearScroll.eff_dst_y1 YearScroll.dst_y2 YearScroll.dst_y1
    omega
  · unfold YearScroll.eff_src_x2 YearScroll.eff_src_x1 YearScroll.eff_dst_x2
      YearScroll.eff_dst_x1 YearScroll.dst_x2 YearScroll.dst_x1
    omega
  · unfold YearScroll.eff_dst_y1
    omega
  · unfold YearScroll.eff_dst_y2
    omega
  · unfold YearScroll.eff_dst_x1
    omega
  · unfold YearScroll.eff_dst_x2
    omega
  · unfold YearScroll.eff_src_y1 YearScroll.eff_dst_y1 YearScroll.dst_y1
    omega
  · unfold YearScroll.eff_src_y2 YearScroll.eff_dst_y2 YearScroll.dst_y2
    omega
  · unfold YearScroll.eff_src_x1 YearScroll.eff_dst_x1 YearScroll.dst_x1
    omega
  · unfold YearScroll.eff_src_x2 YearScroll.eff_dst_x2 YearScroll.dst_x2
    omega
  · intro yy xx cc hreg
    unfold YearScroll.scrolled_canvas
    rw [if_neg]
    intro hc
    exact hreg ⟨hc.2.1, hc.2.2.1, hc.2.2.2.1, hc.2.2.2.2⟩

/-- Witness for C10 at an offset placing the text block far above the frame. -/
theorem C10_clip_paste_safe_witness :
    YearScroll.scrolled_canvas (fun _ _ _ => 9) (-2000) 10 5000 0 0 0 = 0 :=
  (C10_clip_paste_safe (-2000) 10 5000 (fun _ _ _ => 9)).2.2.2.2.2.2.2.2.2.2 0 0 0
    (by
      unfold YearScroll.eff_dst_y1 YearScroll.eff_dst_y2 YearScroll.eff_dst_x1
        YearScroll.eff_dst_x2 YearScroll.dst_y1 YearScroll.dst_y2 YearScroll.dst_x1
        YearScroll.dst_x2
      rw [YearScroll.frame_height_eq]
      omega)
